import Mathlib

/-!
Shallow embedding of the sol_bot trading bot (Python sources under src/)
and verification of its specification claims.

Each definition mirrors one function or code fragment of the repository:
numbers that Python handles as floats are modelled as rationals, byte
buffers as lists of naturals, fallible operations as Option/Except.
-/

/-! ## RugChecker (src/rug_checker.py) -/

/-- Result record of a screening run, mirroring the RugCheckResult dataclass
(failure strings and details omitted: the claims are about the verdict). -/
structure RugCheckResult where
  is_safe : Bool
  risk_level : String
  checks_passed : Nat
  checks_failed : Nat
deriving Repr, DecidableEq

/-- The final decision block of RugChecker.check_token_safety
(src/rug_checker.py lines 96-105): if checks_passed >= 4 then LOW and safe,
elif checks_passed >= 3 then MEDIUM and unsafe, else HIGH and unsafe. -/
def riskDecision (checks_passed : Nat) : String × Bool :=
  if checks_passed ≥ 4 then ("LOW", true)
  else if checks_passed ≥ 3 then ("MEDIUM", false)
  else ("HIGH", false)

/-- RugChecker.check_token_safety aggregation: given the pass/fail outcome of
the five individual checks, count the passes and decide the verdict
(src/rug_checker.py lines 79-114). -/
def check_token_safety (outcomes : List Bool) : RugCheckResult :=
  { is_safe := (riskDecision (outcomes.count true)).2
    risk_level := (riskDecision (outcomes.count true)).1
    checks_passed := outcomes.count true
    checks_failed := 5 - outcomes.count true }

/-- RugChecker._check_mint_authority data handling (src/rug_checker.py line 147):
has_mint_authority = data[0] == 1 if len(data) > 0 else False. -/
def has_mint_authority (data : List Nat) : Bool :=
  if data.length > 0 then data.getD 0 0 == 1 else false

/-- The mint-authority check passes exactly when no mint authority was
detected (src/rug_checker.py lines 149-158). -/
def mint_authority_check_passed (data : List Nat) : Bool :=
  !has_mint_authority data

/-- RugChecker._check_freeze_authority data handling (src/rug_checker.py line 178):
has_freeze_authority = data[45] == 1 if len(data) > 45 else False. -/
def has_freeze_authority (data : List Nat) : Bool :=
  if data.length > 45 then data.getD 45 0 == 1 else false

/-- The freeze-authority check passes exactly when no freeze authority was
detected (src/rug_checker.py lines 180-189). -/
def freeze_authority_check_passed (data : List Nat) : Bool :=
  !has_freeze_authority data

/-! ## Position model and monitor loop (src/raydium_sniper_bot.py) -/

/-- Open position record, mirroring the Position dataclass fields the claims
are about (src/raydium_sniper_bot.py lines 125-137). -/
structure Position where
  entry_price_usd : ℚ
  highest_price : ℚ
  lowest_price : ℚ
deriving Repr, DecidableEq

/-- Position creation in analyze_and_trade_pool (lines 505-515): entry price,
highest price and lowest price all start at the entry valuation. -/
def openPosition (price_usd : ℚ) : Position :=
  { entry_price_usd := price_usd
    highest_price := price_usd
    lowest_price := price_usd }

/-- Position.current_pnl (src/raydium_sniper_bot.py lines 138-141). -/
def current_pnl (pos : Position) (current_price : ℚ) : ℚ :=
  if pos.entry_price_usd ≤ 0 then 0
  else (current_price - pos.entry_price_usd) / pos.entry_price_usd * 100

/-- The extreme-price update performed each monitoring tick
(src/raydium_sniper_bot.py lines 574-579): widen highest_price when the
current price exceeds it and lowest_price when the current price is below it. -/
def updateExtremes (pos : Position) (current_price : ℚ) : Position :=
  { pos with
    highest_price :=
      if current_price > pos.highest_price then current_price else pos.highest_price
    lowest_price :=
      if current_price < pos.lowest_price then current_price else pos.lowest_price }

/-- A run of monitoring ticks applied to a position: fold the per-tick
extreme update over the list of observed prices. -/
def monitorTicks (pos : Position) (prices : List ℚ) : Position :=
  prices.foldl updateExtremes pos

/-- Exit reasons assigned by monitor_positions (src/raydium_sniper_bot.py
lines 593-614). -/
inductive ExitReason where
  | stopLoss
  | takeProfit2
  | takeProfit1
  | timeoutLoss
deriving Repr, DecidableEq

/-- The exit-rule cascade of monitor_positions (src/raydium_sniper_bot.py
lines 593-614): stop loss, then take-profit tier 2, then tier 1, then the
timeout-with-loss rule with the hardcoded 60-minute timeout and -5 percent
small-loss threshold; the first matching rule wins, none otherwise. -/
def evalExitRules (stopLossPercent takeProfit1 takeProfit2 : ℚ)
    (pnl holdTimeMinutes : ℚ) : Option ExitReason :=
  if pnl ≤ stopLossPercent then some ExitReason.stopLoss
  else if pnl ≥ takeProfit2 then some ExitReason.takeProfit2
  else if pnl ≥ takeProfit1 then some ExitReason.takeProfit1
  else if holdTimeMinutes > 60 ∧ pnl < -5 then some ExitReason.timeoutLoss
  else none

/-! ## Event listener and dedup (src/raydium_sniper_bot.py) -/

/-- The listener-side mutable state the dedup claims are about
(src/raydium_sniper_bot.py lines 160-174): the processed-signature set and
the detection / analysis counters. -/
structure ListenerState where
  processedPools : List String
  poolsDetected : Nat
  poolsAnalyzed : Nat
deriving Repr, DecidableEq

/-- analyze_new_pool (src/raydium_sniper_bot.py lines 377-388): first check
the processed-signature set and return unchanged on a duplicate; otherwise
record the signature and count the analysis.  The check and the insertion
run with no await between them, so in the cooperative scheduler they are
one atomic step. -/
def analyze_new_pool (tx_signature : String) (s : ListenerState) : ListenerState :=
  if tx_signature ∈ s.processedPools then s
  else
    { s with
      processedPools := tx_signature :: s.processedPools
      poolsAnalyzed := s.poolsAnalyzed + 1 }

/-- process_log_event (src/raydium_sniper_bot.py lines 349-372): on a
pool-creation match, increment the detection counter and dispatch
analyze_new_pool on the transaction signature; otherwise do nothing. -/
def process_log_event (is_new_pool : Bool) (signature : String)
    (s : ListenerState) : ListenerState :=
  if is_new_pool then
    analyze_new_pool signature { s with poolsDetected := s.poolsDetected + 1 }
  else s

/-! ## RPC pool race (src/rpc_pool.py) -/

/-- Outcome of one endpoint's call inside RPCPool.parallel_call: the awaited
method either returns a value or raises. -/
inductive RpcOutcome (α : Type) where
  | ok (v : α)
  | fail (e : String)
deriving Repr, DecidableEq

/-- The (idx, result, error) triple produced by the inner call_rpc closure,
together with whether the finally block closed the client
(src/rpc_pool.py lines 86-94). -/
structure CallResult (α : Type) where
  result : Option α
  error : Option String
  closed : Bool
deriving Repr, DecidableEq

/-- The call_rpc closure (src/rpc_pool.py lines 86-94): a success yields
(result, no error), an exception yields (no result, error); the finally
block closes the client in both branches. -/
def call_rpc {α : Type} (o : RpcOutcome α) : CallResult α :=
  match o with
  | RpcOutcome.ok v => { result := some v, error := none, closed := true }
  | RpcOutcome.fail e => { result := none, error := some e, closed := true }

/-- The success test of the scan loop (src/rpc_pool.py lines 101-102):
result is not None and error is None. -/
def isSuccessResult {α : Type} (r : CallResult α) : Bool :=
  r.result.isSome && r.error.isNone

/-- The scan over gathered results (src/rpc_pool.py lines 100-103): return
the first result whose call succeeded. -/
def firstSuccess {α : Type} : List (CallResult α) → Option α
  | [] => none
  | r :: rs => if isSuccessResult r then r.result else firstSuccess rs

/-- RPCPool.parallel_call (src/rpc_pool.py lines 79-106): run the call on
every endpoint, return the first success, and raise the all-failed
exception when no call succeeded. -/
def parallel_call {α : Type} (outcomes : List (RpcOutcome α)) : Except String α :=
  match firstSuccess (outcomes.map call_rpc) with
  | some v => Except.ok v
  | none => Except.error "all calls failed"

/-! ## Price calculator (src/price_calculator.py) -/

/-- The configured reference asset (src/price_calculator.py line 84). -/
def SOL_MINT : String := "So11111111111111111111111111111111111111112"

/-- One vault's raw token-account balance as returned by
_get_token_account_balance (src/price_calculator.py lines 197-217). -/
structure VaultBalance where
  amount : Nat
  decimals : Nat
deriving Repr, DecidableEq

/-- Decimal adjustment of a raw balance (src/price_calculator.py lines
170-171): reserve = amount / 10 ^ decimals. -/
def adjustedReserve (v : VaultBalance) : ℚ :=
  (v.amount : ℚ) / 10 ^ v.decimals

/-- The core of PriceCalculator.get_token_price_in_sol
(src/price_calculator.py lines 163-191), generic in the mint identifier
type: adjust both reserves by their decimals, fail when either adjusted
reserve is zero, and then return base/quote when the base mint is the
reference asset, quote/base when the quote mint is, and fail when neither
vault's mint is the reference asset. -/
def get_token_price_in_sol {μ : Type} [DecidableEq μ]
    (solMint baseMint quoteMint : μ) (baseInfo quoteInfo : VaultBalance) :
    Option ℚ :=
  let base_reserve_adjusted := adjustedReserve baseInfo
  let quote_reserve_adjusted := adjustedReserve quoteInfo
  if base_reserve_adjusted = 0 ∨ quote_reserve_adjusted = 0 then none
  else if baseMint = solMint then
    some (base_reserve_adjusted / quote_reserve_adjusted)
  else if quoteMint = solMint then
    some (quote_reserve_adjusted / base_reserve_adjusted)
  else none

/-- The price formula exactly as the specification words it (spec.md section
4.3): identify which mint equals the reference asset and return
otherSideReserve / referenceSideReserve.  Written only to be compared with
the source-derived get_token_price_in_sol. -/
def specPriceOtherOverReference {μ : Type} [DecidableEq μ]
    (solMint baseMint quoteMint : μ) (baseInfo quoteInfo : VaultBalance) :
    Option ℚ :=
  let base_reserve_adjusted := adjustedReserve baseInfo
  let quote_reserve_adjusted := adjustedReserve quoteInfo
  if base_reserve_adjusted = 0 ∨ quote_reserve_adjusted = 0 then none
  else if baseMint = solMint then
    some (quote_reserve_adjusted / base_reserve_adjusted)
  else if quoteMint = solMint then
    some (base_reserve_adjusted / quote_reserve_adjusted)
  else none

/-! ## Pool account layout (src/price_calculator.py lines 20-73) -/

/-- Number of 8-byte unsigned integer fields at the head of the Raydium
pool V4 layout (status through swap_quote2_base_fee). -/
def RAYDIUM_POOL_V4_U64_FIELDS : Nat := 38

/-- Number of 32-byte public-key fields in the layout (base_vault through
owner). -/
def RAYDIUM_POOL_V4_PUBKEY_FIELDS : Nat := 12

/-- Trailing padding of the layout: one 32-byte lpReserve pad plus three
8-byte pads. -/
def RAYDIUM_POOL_V4_PADDING_BYTES : Nat := 32 + 8 * 3

/-- Total fixed size of RAYDIUM_POOL_V4_LAYOUT in bytes (744). -/
def RAYDIUM_POOL_V4_SIZEOF : Nat :=
  RAYDIUM_POOL_V4_U64_FIELDS * 8 + RAYDIUM_POOL_V4_PUBKEY_FIELDS * 32 +
    RAYDIUM_POOL_V4_PADDING_BYTES

/-- Little-endian read of an 8-byte unsigned integer at a byte offset. -/
def readU64LE (data : List Nat) (off : Nat) : Nat :=
  (List.range 8).foldr (fun i acc => data.getD (off + i) 0 + 256 * acc) 0

/-- Fixed-width byte slice of a buffer. -/
def bytesSlice (data : List Nat) (off len : Nat) : List Nat :=
  (data.drop off).take len

/-- The decoded pool-state fields that get_token_price_in_sol consumes
(src/price_calculator.py lines 20-73 and 148-178). -/
structure PoolStateV4 where
  status : Nat
  base_decimal : Nat
  quote_decimal : Nat
  base_vault : List Nat
  quote_vault : List Nat
  base_mint : List Nat
  quote_mint : List Nat
deriving Repr, DecidableEq

/-- RAYDIUM_POOL_V4_LAYOUT.parse: all fields are fixed width, so parsing
raises (modelled as none) exactly when the buffer is shorter than the
layout size; otherwise the fields are read at their fixed offsets
(u64 fields at 0.., pubkey fields from byte 304). -/
def parsePoolStateV4 (data : List Nat) : Option PoolStateV4 :=
  if data.length < RAYDIUM_POOL_V4_SIZEOF then none
  else some
    { status := readU64LE data 0
      base_decimal := readU64LE data 32
      quote_decimal := readU64LE data 40
      base_vault := bytesSlice data 304 32
      quote_vault := bytesSlice data 336 32
      base_mint := bytesSlice data 368 32
      quote_mint := bytesSlice data 400 32 }

/-- get_token_price_in_sol viewed from the raw account buffer
(src/price_calculator.py lines 143-191): parse the pool layout (a parse
failure is caught and surfaces as None), look up both vault balances, and
derive the price; any failure yields none. -/
def priceFromPoolAccount (solMintBytes : List Nat) (data : List Nat)
    (vaultLookup : List Nat → Option VaultBalance) : Option ℚ :=
  match parsePoolStateV4 data with
  | none => none
  | some ps =>
    match vaultLookup ps.base_vault, vaultLookup ps.quote_vault with
    | some baseInfo, some quoteInfo =>
        get_token_price_in_sol solMintBytes ps.base_mint ps.quote_mint baseInfo quoteInfo
    | _, _ => none

/-! ## Theorems for claims C1 and C2 -/

/-- C1: the screening verdict of check_token_safety is determined solely by
the number of passed checks out of five: checksPassed >= 4 yields LOW risk
and is_safe = true, checksPassed = 3 yields MEDIUM and is_safe = false,
checksPassed < 3 yields HIGH and is_safe = false; in particular a 3-of-5
majority is never judged safe, and two runs with the same pass count get
the same verdict. -/
theorem C1_verdict_from_count (outcomes : List Bool) :
    (check_token_safety outcomes).checks_passed = outcomes.count true ∧
    (4 ≤ outcomes.count true →
      (check_token_safety outcomes).risk_level = "LOW" ∧
      (check_token_safety outcomes).is_safe = true) ∧
    (outcomes.count true = 3 →
      (check_token_safety outcomes).risk_level = "MEDIUM" ∧
      (check_token_safety outcomes).is_safe = false) ∧
    (outcomes.count true < 3 →
      (check_token_safety outcomes).risk_level = "HIGH" ∧
      (check_token_safety outcomes).is_safe = false) ∧
    (∀ outcomes2 : List Bool, outcomes.count true = outcomes2.count true →
      check_token_safety outcomes = check_token_safety outcomes2) := by
  refine ⟨rfl, ?_, ?_, ?_, ?_⟩
  · intro h
    constructor <;> simp [check_token_safety, riskDecision, h]
  · intro h
    constructor <;> norm_num [check_token_safety, riskDecision, h]
  · intro h
    have h4 : ¬ (4 ≤ outcomes.count true) := by omega
    have h3 : ¬ (3 ≤ outcomes.count true) := by omega
    constructor <;> simp [check_token_safety, riskDecision, h3, h4]
  · intro outcomes2 hc
    simp [check_token_safety, hc]

/-- Witness for C1: three of five checks passed gives MEDIUM risk and not
safe. -/
theorem C1_verdict_from_count_witness :
    (check_token_safety [true, true, true, false, false]).risk_level = "MEDIUM" ∧
    (check_token_safety [true, true, true, false, false]).is_safe = false :=
  (C1_verdict_from_count [true, true, true, false, false]).2.2.1 (by decide)

/-- C2: monitor_positions evaluates exit rules in the fixed order stop loss
(pnl <= stop-loss threshold), take-profit tier 2 (pnl >= tp2), take-profit
tier 1 (pnl >= tp1), timeout-loss (hold minutes > 60 and pnl < -5), first
match winning; in particular pnl = -25 with stop loss -20 and hold time 90
minutes exits with reason stop loss, not timeout loss. -/
theorem C2_exit_rule_order (stopLossPercent tp1 tp2 pnl holdMinutes : ℚ) :
    (pnl ≤ stopLossPercent →
      evalExitRules stopLossPercent tp1 tp2 pnl holdMinutes = some ExitReason.stopLoss) ∧
    (stopLossPercent < pnl → tp2 ≤ pnl →
      evalExitRules stopLossPercent tp1 tp2 pnl holdMinutes = some ExitReason.takeProfit2) ∧
    (stopLossPercent < pnl → pnl < tp2 → tp1 ≤ pnl →
      evalExitRules stopLossPercent tp1 tp2 pnl holdMinutes = some ExitReason.takeProfit1) ∧
    (stopLossPercent < pnl → pnl < tp1 → pnl < tp2 → 60 < holdMinutes → pnl < -5 →
      evalExitRules stopLossPercent tp1 tp2 pnl holdMinutes = some ExitReason.timeoutLoss) ∧
    evalExitRules (-20) 50 100 (-25) 90 = some ExitReason.stopLoss := by
  refine ⟨?_, ?_, ?_, ?_, ?_⟩
  · intro h
    simp [evalExitRules, h]
  · intro h1 h2
    simp [evalExitRules, not_le.mpr h1, h2]
  · intro h1 h2 h3
    simp [evalExitRules, not_le.mpr h1, not_le.mpr h2, h3]
  · intro h1 h2 h3 h4 h5
    simp [evalExitRules, not_le.mpr h1, not_le.mpr h2, not_le.mpr h3, h4, h5]
  · norm_num [evalExitRules]

/-- Witness for C2: the concrete instance pnl = -25, stop loss -20,
hold time 90 minutes resolves to a stop-loss exit. -/
theorem C2_exit_rule_order_witness :
    evalExitRules (-20) 50 100 (-25) 90 = some ExitReason.stopLoss :=
  (C2_exit_rule_order (-20) 50 100 (-25) 90).1 (by norm_num)

/-! ## Position admission and concurrency (src/raydium_sniper_bot.py) -/

/-- The trading state the position-bound claims are about: the open-position
keys (the positions dict is keyed by token mint) and the daily trade
counter (src/raydium_sniper_bot.py lines 160-174 and 496-517). -/
structure SnipeState where
  positions : List String
  todayTrades : Nat
deriving Repr, DecidableEq

/-- The admission check at the top of analyze_and_trade_pool
(src/raydium_sniper_bot.py lines 435-442): proceed only when the open
position count is below the maximum and the daily trade counter is below
the daily cap. -/
def admissionOk (maxPositions maxDailyTrades : Nat) (s : SnipeState) : Bool :=
  decide (s.positions.length < maxPositions) &&
    decide (s.todayTrades < maxDailyTrades)

/-- The state mutation at the end of a successful analyze_and_trade_pool run
(src/raydium_sniper_bot.py lines 502-517): bump today_trades and store the
new position under its token mint (a dict store, so an existing key is
overwritten, not duplicated). -/
def openNewPosition (s : SnipeState) (token_mint : String) : SnipeState :=
  { positions :=
      if token_mint ∈ s.positions then s.positions else token_mint :: s.positions
    todayTrades := s.todayTrades + 1 }

/-- One analyze_and_trade_pool run executed atomically (no interleaving
between its admission check and its position insertion): insert only when
the admission check passes. -/
def analyze_and_trade_pool (maxPositions maxDailyTrades : Nat)
    (s : SnipeState) (token_mint : String) : SnipeState :=
  if admissionOk maxPositions maxDailyTrades s then openNewPosition s token_mint
  else s

/-- A sequence of atomic analyze_and_trade_pool runs. -/
def runAnalyses (maxPositions maxDailyTrades : Nat) (s : SnipeState)
    (tokens : List String) : SnipeState :=
  tokens.foldl (analyze_and_trade_pool maxPositions maxDailyTrades) s

/-- The empty starting state: no open positions, no trades today. -/
def initialSnipeState : SnipeState :=
  { positions := [], todayTrades := 0 }

/-- Reachable configurations when several analyze_and_trade_pool tasks run
concurrently.  In the source the admission check (lines 435-442) and the
position insertion (lines 502-517) of one task are separated by awaited
calls (rug checks, price fetch, buy), so other tasks can interleave
between them.  A configuration is the shared state plus the list of tasks
that have passed their admission check but not yet inserted: passCheck
reads the shared state without changing it, insertStep later performs the
insertion for one such task. -/
inductive ConcReachable (maxPositions maxDailyTrades : Nat) :
    SnipeState → List String → Prop where
  | init : ConcReachable maxPositions maxDailyTrades initialSnipeState []
  | passCheck (s : SnipeState) (pending : List String) (token_mint : String) :
      ConcReachable maxPositions maxDailyTrades s pending →
      admissionOk maxPositions maxDailyTrades s = true →
      ConcReachable maxPositions maxDailyTrades s (token_mint :: pending)
  | insertStep (s : SnipeState) (pending : List String) (token_mint : String) :
      ConcReachable maxPositions maxDailyTrades s pending →
      token_mint ∈ pending →
      ConcReachable maxPositions maxDailyTrades
        (openNewPosition s token_mint) (pending.erase token_mint)

/-! ## WebSocket reconnection backoff (src/raydium_sniper_bot.py lines 282-347) -/

/-- Events the reconnection loop of listen_new_pools reacts to: a
successful (re)subscription, a connection failure caught by the
WebSocketException handler (lines 337-342), or a failure caught by the
generic exception handler (lines 344-347), e.g. an OSError raised by the
connect call itself. -/
inductive WsEvent where
  | subscribed
  | wsFailed
  | otherFailed
deriving Repr, DecidableEq

/-- Initial reconnect delay (src/raydium_sniper_bot.py line 290). -/
def initialReconnectDelay : Nat := 5

/-- Maximum reconnect delay (src/raydium_sniper_bot.py line 291). -/
def maxReconnectDelay : Nat := 300

/-- One transition of the reconnection loop: on a successful subscription
the delay resets to 5 and nothing is slept (line 320); on a failure caught
by the WebSocketException handler the loop sleeps the current delay and
then doubles it, capped at 300 (lines 341-342); on a failure caught by the
generic exception handler the loop sleeps the current delay and leaves it
unchanged (lines 344-347).  Returns the new delay and the list of slept
delays. -/
def reconnectStep (reconnectDelay : Nat) : WsEvent → Nat × List Nat
  | WsEvent.subscribed => (initialReconnectDelay, [])
  | WsEvent.wsFailed =>
      (min (reconnectDelay * 2) maxReconnectDelay, [reconnectDelay])
  | WsEvent.otherFailed => (reconnectDelay, [reconnectDelay])

/-- Run the reconnection loop over a sequence of events, accumulating the
slept delays in order. -/
def runListener (reconnectDelay : Nat) (events : List WsEvent) : Nat × List Nat :=
  events.foldl
    (fun acc ev =>
      ((reconnectStep acc.1 ev).1, acc.2 ++ (reconnectStep acc.1 ev).2))
    (reconnectDelay, [])

/-! ## Theorems for claim C3 -/

/-- Helper: a vault with a positive raw balance has a positive adjusted
reserve. -/
lemma adjustedReserve_pos (v : VaultBalance) (h : 0 < v.amount) :
    0 < adjustedReserve v := by
  unfold adjustedReserve
  apply div_pos
  · exact_mod_cast h
  · positivity

/-- C3 counterexample: with the reference asset (SOL) as base mint, base
reserve 2 and quote reserve 4 (both with 0 decimals), the code returns
baseReserve / quoteReserve = 1/2, i.e. referenceSideReserve /
otherSideReserve, whereas the claim's formula otherSideReserve /
referenceSideReserve gives 2; the two disagree. -/
theorem C3_price_direction_cex :
    get_token_price_in_sol SOL_MINT SOL_MINT
        "TokenMint1111111111111111111111111111111111"
        { amount := 2, decimals := 0 } { amount := 4, decimals := 0 } =
      some ((1 : ℚ) / 2) ∧
    specPriceOtherOverReference SOL_MINT SOL_MINT
        "TokenMint1111111111111111111111111111111111"
        { amount := 2, decimals := 0 } { amount := 4, decimals := 0 } =
      some ((2 : ℚ)) ∧
    ((1 : ℚ) / 2) ≠ (2 : ℚ) := by
  refine ⟨?_, ?_, by norm_num⟩ <;>
    norm_num [get_token_price_in_sol, specPriceOtherOverReference, adjustedReserve]

/-- C3 (amended): for positive vault balances the derivation adjusts each
side by its decimals and returns price = referenceSideReserve /
otherSideReserve (the reference-asset-side reserve divided by the other
side's reserve): base/quote when the base mint is the reference asset,
quote/base when the quote mint is; when neither mint is the reference
asset it fails and returns no price. -/
theorem C3_price_reference_over_other {μ : Type} [DecidableEq μ]
    (solMint baseMint quoteMint : μ) (baseInfo quoteInfo : VaultBalance)
    (hb : 0 < baseInfo.amount) (hq : 0 < quoteInfo.amount) :
    (baseMint = solMint →
      get_token_price_in_sol solMint baseMint quoteMint baseInfo quoteInfo =
        some (adjustedReserve baseInfo / adjustedReserve quoteInfo)) ∧
    (baseMint ≠ solMint → quoteMint = solMint →
      get_token_price_in_sol solMint baseMint quoteMint baseInfo quoteInfo =
        some (adjustedReserve quoteInfo / adjustedReserve baseInfo)) ∧
    (baseMint ≠ solMint → quoteMint ≠ solMint →
      get_token_price_in_sol solMint baseMint quoteMint baseInfo quoteInfo = none) := by
  have hb0 : adjustedReserve baseInfo ≠ 0 := ne_of_gt (adjustedReserve_pos baseInfo hb)
  have hq0 : adjustedReserve quoteInfo ≠ 0 := ne_of_gt (adjustedReserve_pos quoteInfo hq)
  refine ⟨?_, ?_, ?_⟩
  · intro h
    simp [get_token_price_in_sol, hb0, hq0, h]
  · intro h1 h2
    simp [get_token_price_in_sol, hb0, hq0, h1, h2]
  · intro h1 h2
    simp [get_token_price_in_sol, hb0, hq0, h1, h2]

/-- Witness for the amended C3: a SOL/token pool with reserves 2 and 4
prices at 1/2 SOL. -/
theorem C3_price_reference_over_other_witness :
    get_token_price_in_sol SOL_MINT SOL_MINT
        "TokenMintA111111111111111111111111111111111"
        { amount := 2, decimals := 0 } { amount := 4, decimals := 0 } =
      some (adjustedReserve { amount := 2, decimals := 0 } /
        adjustedReserve { amount := 4, decimals := 0 }) :=
  (C3_price_reference_over_other SOL_MINT SOL_MINT
      "TokenMintA111111111111111111111111111111111"
      { amount := 2, decimals := 0 } { amount := 4, decimals := 0 }
      (by decide) (by decide)).1 rfl

/-! ## Theorems for claim C4 -/

/-- Helper: a tick never lowers the running maximum. -/
lemma updateExtremes_highest_mono (pos : Position) (c : ℚ) :
    pos.highest_price ≤ (updateExtremes pos c).highest_price := by
  by_cases h : c > pos.highest_price
  · simp [updateExtremes, h, le_of_lt h]
  · simp [updateExtremes, h]

/-- Helper: a tick never raises the running minimum. -/
lemma updateExtremes_lowest_mono (pos : Position) (c : ℚ) :
    (updateExtremes pos c).lowest_price ≤ pos.lowest_price := by
  by_cases h : c < pos.lowest_price
  · simp [updateExtremes, h, le_of_lt h]
  · simp [updateExtremes, h]

/-- Helper: after a tick the observed price is below the running maximum. -/
lemma le_updateExtremes_highest (pos : Position) (c : ℚ) :
    c ≤ (updateExtremes pos c).highest_price := by
  by_cases h : c > pos.highest_price
  · simp [updateExtremes, h]
  · simp [updateExtremes, h]
    exact le_of_not_lt h

/-- Helper: after a tick the observed price is above the running minimum. -/
lemma updateExtremes_lowest_le (pos : Position) (c : ℚ) :
    (updateExtremes pos c).lowest_price ≤ c := by
  by_cases h : c < pos.lowest_price
  · simp [updateExtremes, h]
  · simp [updateExtremes, h]
    exact le_of_not_lt h

/-- Helper: a run of ticks never lowers the running maximum. -/
lemma monitorTicks_highest_mono (prices : List ℚ) :
    ∀ pos : Position, pos.highest_price ≤ (monitorTicks pos prices).highest_price := by
  induction prices with
  | nil => intro pos; simp [monitorTicks]
  | cons p rest ih =>
      intro pos
      have h1 := updateExtremes_highest_mono pos p
      have h2 := ih (updateExtremes pos p)
      simp only [monitorTicks, List.foldl_cons] at h2 ⊢
      exact le_trans h1 h2

/-- Helper: a run of ticks never raises the running minimum. -/
lemma monitorTicks_lowest_mono (prices : List ℚ) :
    ∀ pos : Position, (monitorTicks pos prices).lowest_price ≤ pos.lowest_price := by
  induction prices with
  | nil => intro pos; simp [monitorTicks]
  | cons p rest ih =>
      intro pos
      have h1 := updateExtremes_lowest_mono pos p
      have h2 := ih (updateExtremes pos p)
      simp only [monitorTicks, List.foldl_cons] at h2 ⊢
      exact le_trans h2 h1

/-- Helper: every price observed during a run of ticks is below the final
running maximum. -/
lemma monitorTicks_mem_le_highest (prices : List ℚ) :
    ∀ (pos : Position) (p : ℚ), p ∈ prices →
      p ≤ (monitorTicks pos prices).highest_price := by
  induction prices with
  | nil => intro pos p hp; cases hp
  | cons q rest ih =>
      intro pos p hp
      rcases List.mem_cons.mp hp with h | h
      · subst h
        have h1 := le_updateExtremes_highest pos p
        have h2 := monitorTicks_highest_mono rest (updateExtremes pos p)
        simp only [monitorTicks, List.foldl_cons] at h2 ⊢
        exact le_trans h1 h2
      · have := ih (updateExtremes pos q) p h
        simp only [monitorTicks, List.foldl_cons] at this ⊢
        exact this

/-- Helper: every price observed during a run of ticks is above the final
running minimum. -/
lemma monitorTicks_lowest_le_mem (prices : List ℚ) :
    ∀ (pos : Position) (p : ℚ), p ∈ prices →
      (monitorTicks pos prices).lowest_price ≤ p := by
  induction prices with
  | nil => intro pos p hp; cases hp
  | cons q rest ih =>
      intro pos p hp
      rcases List.mem_cons.mp hp with h | h
      · subst h
        have h1 := updateExtremes_lowest_le pos p
        have h2 := monitorTicks_lowest_mono rest (updateExtremes pos p)
        simp only [monitorTicks, List.foldl_cons] at h2 ⊢
        exact le_trans h2 h1
      · have := ih (updateExtremes pos q) p h
        simp only [monitorTicks, List.foldl_cons] at this ⊢
        exact this

/-- C4: highest_price and lowest_price are monotone extremes of the prices
observed since entry: after any run of valuation ticks every observed
price (and the entry price itself) lies between lowest_price and
highest_price, and each single tick only widens the interval, never
narrows it. -/
theorem C4_extremes_monotone (entry : ℚ) (prices : List ℚ) :
    (∀ p ∈ prices,
      (monitorTicks (openPosition entry) prices).lowest_price ≤ p ∧
      p ≤ (monitorTicks (openPosition entry) prices).highest_price) ∧
    (monitorTicks (openPosition entry) prices).lowest_price ≤ entry ∧
    entry ≤ (monitorTicks (openPosition entry) prices).highest_price ∧
    (∀ (pos : Position) (c : ℚ),
      pos.highest_price ≤ (updateExtremes pos c).highest_price ∧
      (updateExtremes pos c).lowest_price ≤ pos.lowest_price) := by
  refine ⟨?_, ?_, ?_, ?_⟩
  · intro p hp
    exact ⟨monitorTicks_lowest_le_mem prices (openPosition entry) p hp,
      monitorTicks_mem_le_highest prices (openPosition entry) p hp⟩
  · exact monitorTicks_lowest_mono prices (openPosition entry)
  · exact monitorTicks_highest_mono prices (openPosition entry)
  · intro pos c
    exact ⟨updateExtremes_highest_mono pos c, updateExtremes_lowest_mono pos c⟩

/-- Witness for C4: entering at 10 and observing prices 12, 7, 9, both the
peak 12 and the trough 7 lie inside the final extreme interval. -/
theorem C4_extremes_monotone_witness :
    (monitorTicks (openPosition 10) [12, 7, 9]).lowest_price ≤ 7 ∧
    12 ≤ (monitorTicks (openPosition 10) [12, 7, 9]).highest_price := by
  have h := C4_extremes_monotone 10 [12, 7, 9]
  exact ⟨(h.1 7 (by simp)).1, (h.1 12 (by simp)).2⟩

/-! ## Theorems for claim C5 -/

/-- C5: the duplicate check against the processed-signature set runs before
any analysis work: analyzing an already-seen signature is a no-op,
analysis is idempotent, and delivering the same pool-creation detection
twice performs exactly one analysis (the detection counter counts both
deliveries, the analysis counter only the first). -/
theorem C5_dedup_idempotent (s : ListenerState) (sig : String) :
    analyze_new_pool sig (analyze_new_pool sig s) = analyze_new_pool sig s ∧
    (sig ∈ s.processedPools → analyze_new_pool sig s = s) ∧
    (sig ∉ s.processedPools →
      (process_log_event true sig (process_log_event true sig s)).poolsAnalyzed =
          s.poolsAnalyzed + 1 ∧
      (process_log_event true sig (process_log_event true sig s)).poolsDetected =
          s.poolsDetected + 2) := by
  refine ⟨?_, ?_, ?_⟩
  · by_cases h : sig ∈ s.processedPools
    · simp [analyze_new_pool, h]
    · simp [analyze_new_pool, h]
  · intro h
    simp [analyze_new_pool, h]
  · intro h
    constructor <;> simp [process_log_event, analyze_new_pool, h]

/-- Witness for C5: delivering the same fresh signature twice from the empty
listener state analyzes it once and detects it twice. -/
theorem C5_dedup_idempotent_witness :
    (process_log_event true "sigA" (process_log_event true "sigA"
        { processedPools := [], poolsDetected := 0, poolsAnalyzed := 0 })).poolsAnalyzed = 1 ∧
    (process_log_event true "sigA" (process_log_event true "sigA"
        { processedPools := [], poolsDetected := 0, poolsAnalyzed := 0 })).poolsDetected = 2 :=
  (C5_dedup_idempotent
      { processedPools := [], poolsDetected := 0, poolsAnalyzed := 0 } "sigA").2.2
    (by simp)

/-! ## Theorems for claim C6 -/

/-- Helper: the scan over the per-endpoint call results finds nothing
exactly when every endpoint's call failed. -/
lemma firstSuccess_map_none_iff {α : Type} (outcomes : List (RpcOutcome α)) :
    firstSuccess (outcomes.map call_rpc) = none ↔
      ∀ o ∈ outcomes, ∃ e, o = RpcOutcome.fail e := by
  induction outcomes with
  | nil => simp [firstSuccess]
  | cons o rest ih =>
      cases o with
      | ok v =>
          simp [firstSuccess, call_rpc, isSuccessResult]
      | fail e =>
          simp [firstSuccess, call_rpc, isSuccessResult, ih]

/-- C6: parallel_call returns a success whenever at least one endpoint's
call succeeds (other endpoints failing never aborts the race), it raises
the all-endpoints-failed error exactly when every endpoint's call errors,
and every branch, winner or loser, closes its client. -/
theorem C6_parallel_call {α : Type} (outcomes : List (RpcOutcome α)) :
    ((∃ v, RpcOutcome.ok v ∈ outcomes) →
      ∃ v, parallel_call outcomes = Except.ok v) ∧
    (parallel_call outcomes = Except.error "all calls failed" ↔
      ∀ o ∈ outcomes, ∃ e, o = RpcOutcome.fail e) ∧
    (∀ o ∈ outcomes, (call_rpc o).closed = true) := by
  refine ⟨?_, ?_, ?_⟩
  · rintro ⟨v, hv⟩
    cases hfs : firstSuccess (outcomes.map call_rpc) with
    | some w => exact ⟨w, by simp [parallel_call, hfs]⟩
    | none =>
        rcases (firstSuccess_map_none_iff outcomes).mp hfs _ hv with ⟨e, he⟩
        exact absurd he (by simp)
  · constructor
    · intro h
      cases hfs : firstSuccess (outcomes.map call_rpc) with
      | some w => simp [parallel_call, hfs] at h
      | none => exact (firstSuccess_map_none_iff outcomes).mp hfs
    · intro h
      have hfs := (firstSuccess_map_none_iff outcomes).mpr h
      simp [parallel_call, hfs]
  · intro o ho
    cases o <;> simp [call_rpc]

/-- Witness for C6: with one failing and one succeeding endpoint the race
returns a success; with two failing endpoints it raises the all-failed
error. -/
theorem C6_parallel_call_witness :
    (∃ v, parallel_call [RpcOutcome.fail "timeout", RpcOutcome.ok (7 : Nat)] =
      Except.ok v) ∧
    parallel_call ([RpcOutcome.fail "down", RpcOutcome.fail "rate limited"] :
        List (RpcOutcome Nat)) = Except.error "all calls failed" := by
  constructor
  · exact (C6_parallel_call [RpcOutcome.fail "timeout", RpcOutcome.ok (7 : Nat)]).1
      ⟨7, by simp⟩
  · refine (C6_parallel_call _).2.1.mpr ?_
    intro o ho
    simp only [List.mem_cons, List.not_mem_nil, or_false] at ho
    rcases ho with rfl | rfl
    · exact ⟨"down", rfl⟩
    · exact ⟨"rate limited", rfl⟩

/-! ## Theorems for claim C7 -/

/-- C7 counterexample: with a maximum of 1 open position, two concurrent
analyze_and_trade_pool tasks for different pools can both pass the
admission check before either inserts (the check and the insertion are
separated by awaited calls), after which both insert and the reachable
state holds 2 open positions, exceeding the configured maximum. -/
theorem C7_concurrent_bound_cex :
    ConcReachable 1 20 { positions := ["A", "B"], todayTrades := 2 } [] ∧
    ¬ (({ positions := ["A", "B"], todayTrades := 2 } : SnipeState).positions.length ≤ 1) := by
  constructor
  · have h0 : ConcReachable 1 20 initialSnipeState [] := ConcReachable.init
    have h1 : ConcReachable 1 20 initialSnipeState ["A"] :=
      ConcReachable.passCheck _ _ "A" h0 (by decide)
    have h2 : ConcReachable 1 20 initialSnipeState ["B", "A"] :=
      ConcReachable.passCheck _ _ "B" h1 (by decide)
    have h3 := ConcReachable.insertStep _ _ "B" h2 (by simp)
    have h4 := ConcReachable.insertStep _ _ "A" h3 (by simp [initialSnipeState, openNewPosition])
    simpa [initialSnipeState, openNewPosition] using h4
  · decide

/-- Helper: one atomic analyze_and_trade_pool run preserves the
open-position bound. -/
lemma analyze_and_trade_pool_length_le (maxP maxD : Nat) (s : SnipeState)
    (tok : String) (h : s.positions.length ≤ maxP) :
    (analyze_and_trade_pool maxP maxD s tok).positions.length ≤ maxP := by
  unfold analyze_and_trade_pool
  by_cases hok : admissionOk maxP maxD s = true
  · have hlt : s.positions.length < maxP := by
      have := hok
      unfold admissionOk at this
      simp only [Bool.and_eq_true, decide_eq_true_eq] at this
      exact this.1
    by_cases hm : tok ∈ s.positions
    · simp [hok, openNewPosition, hm]
      omega
    · simp [hok, openNewPosition, hm]
      omega
  · simp [hok, h]

/-- C7 (amended): analyze_and_trade_pool opens no position when, at the
time of its admission check, the open-position count has reached the
maximum or the daily trade counter has reached the daily cap; and when
analysis tasks execute without interleaving between a task's admission
check and its position insertion, the open-position count stays at or
below the configured maximum in every reachable state. -/
theorem C7_positions_bounded (maxPositions maxDailyTrades : Nat)
    (tokens : List String) :
    (∀ (s : SnipeState) (tok : String),
      maxPositions ≤ s.positions.length ∨ maxDailyTrades ≤ s.todayTrades →
      analyze_and_trade_pool maxPositions maxDailyTrades s tok = s) ∧
    (runAnalyses maxPositions maxDailyTrades initialSnipeState tokens).positions.length ≤
      maxPositions := by
  constructor
  · intro s tok h
    have hok : admissionOk maxPositions maxDailyTrades s = false := by
      unfold admissionOk
      rcases h with h | h
      · simp [Nat.not_lt.mpr h]
      · simp [Nat.not_lt.mpr h]
    simp [analyze_and_trade_pool, hok]
  · have key : ∀ (toks : List String) (s : SnipeState),
        s.positions.length ≤ maxPositions →
        (runAnalyses maxPositions maxDailyTrades s toks).positions.length ≤ maxPositions := by
      intro toks
      induction toks with
      | nil => intro s h; simpa [runAnalyses] using h
      | cons t rest ih =>
          intro s h
          simp only [runAnalyses, List.foldl_cons] at ih ⊢
          exact ih _ (analyze_and_trade_pool_length_le maxPositions maxDailyTrades s t h)
    exact key tokens initialSnipeState (by simp [initialSnipeState])

/-- Witness for the amended C7: a full book rejects a new admission, and a
sequence of three atomic analysis runs under a maximum of 1 leaves at most
one open position. -/
theorem C7_positions_bounded_witness :
    analyze_and_trade_pool 1 20 { positions := ["X"], todayTrades := 1 } "Y" =
      { positions := ["X"], todayTrades := 1 } ∧
    (runAnalyses 1 20 initialSnipeState ["A", "B", "C"]).positions.length ≤ 1 := by
  have h := C7_positions_bounded 1 20 ["A", "B", "C"]
  exact ⟨h.1 { positions := ["X"], todayTrades := 1 } "Y" (Or.inl (by decide)), h.2⟩

/-! ## Theorems for claim C8 -/

/-- C8: a pool account buffer shorter than the fixed layout size (744
bytes) fails to decode, and the price derivation consuming it reports
failure instead of returning a price. -/
theorem C8_short_buffer_fails (solMintBytes data : List Nat)
    (vaultLookup : List Nat → Option VaultBalance)
    (h : data.length < RAYDIUM_POOL_V4_SIZEOF) :
    parsePoolStateV4 data = none ∧
    priceFromPoolAccount solMintBytes data vaultLookup = none := by
  have hp : parsePoolStateV4 data = none := by
    simp [parsePoolStateV4, h]
  exact ⟨hp, by simp [priceFromPoolAccount, hp]⟩

/-- Witness for C8: a 3-byte buffer neither decodes nor produces a price. -/
theorem C8_short_buffer_fails_witness :
    parsePoolStateV4 [1, 2, 3] = none ∧
    priceFromPoolAccount [] [1, 2, 3] (fun _ => none) = none :=
  C8_short_buffer_fails [] [1, 2, 3] (fun _ => none) (by decide)

/-! ## Theorems for claim C9 -/

/-- C9 counterexample: not every consecutive connection failure doubles the
delay.  Three consecutive failures caught by the generic exception handler
(lines 344-347), e.g. an OSError from the connect call, sleep 5, 5 and 5
seconds and leave the delay at 5: the claimed delay sequence 5, 10, 20
does not occur on this failure path. -/
theorem C9_backoff_cex :
    (runListener initialReconnectDelay
        [WsEvent.otherFailed, WsEvent.otherFailed, WsEvent.otherFailed]).2 =
      [5, 5, 5] ∧
    (runListener initialReconnectDelay
        [WsEvent.otherFailed, WsEvent.otherFailed, WsEvent.otherFailed]).1 = 5 ∧
    ([5, 5, 5] : List Nat) ≠ [5, 10, 20] := by
  refine ⟨by decide, by decide, by decide⟩

/-- C9 (amended): the reconnection backoff starts at 5 seconds and resets
to 5 after every successful (re)subscription; a connection failure caught
by the WebSocketException handler sleeps the current delay and doubles it,
capped at 300 seconds which is never exceeded, so three such consecutive
failures sleep 5, 10 and 20 seconds; a failure caught by the generic
exception handler sleeps the current delay without doubling it. -/
theorem C9_backoff_doubling_ws :
    initialReconnectDelay = 5 ∧
    (runListener initialReconnectDelay
        [WsEvent.wsFailed, WsEvent.wsFailed, WsEvent.wsFailed]).2 = [5, 10, 20] ∧
    (∀ d, (reconnectStep d WsEvent.subscribed).1 = 5) ∧
    (∀ d, d * 2 ≤ maxReconnectDelay →
      (reconnectStep d WsEvent.wsFailed).1 = d * 2) ∧
    (∀ d, (reconnectStep d WsEvent.wsFailed).1 ≤ maxReconnectDelay) ∧
    (∀ d, reconnectStep d WsEvent.otherFailed = (d, [d])) := by
  refine ⟨rfl, by decide, fun d => rfl, ?_, ?_, fun d => rfl⟩
  · intro d h
    simp [reconnectStep, Nat.min_eq_left h]
  · intro d
    simp [reconnectStep]

/-- Witness for the amended C9: a WebSocket failure at delay 10 doubles it
to 20, a WebSocket failure at delay 200 caps the next delay at 300, and a
generic failure at delay 10 sleeps 10 and keeps the delay at 10. -/
theorem C9_backoff_doubling_ws_witness :
    (reconnectStep 10 WsEvent.wsFailed).1 = 20 ∧
    (reconnectStep 200 WsEvent.wsFailed).1 ≤ 300 ∧
    reconnectStep 10 WsEvent.otherFailed = (10, [10]) :=
  ⟨(C9_backoff_doubling_ws).2.2.2.1 10 (by decide),
    (C9_backoff_doubling_ws).2.2.2.2.1 200,
    (C9_backoff_doubling_ws).2.2.2.2.2 10⟩

/-! ## Theorems for claim C10 -/

/-- C10: when the mint account's data buffer is too short to contain the
authority flag being tested, the check treats the authority as absent and
passes: an empty buffer passes the mint-authority check (flag byte 0) and
any buffer of at most 45 bytes passes the freeze-authority check (flag
byte 45), even though the flag byte was never read. -/
theorem C10_short_mint_data_passes (data : List Nat) :
    (data.length = 0 → mint_authority_check_passed data = true) ∧
    (data.length ≤ 45 → freeze_authority_check_passed data = true) := by
  constructor
  · intro h
    simp [mint_authority_check_passed, has_mint_authority, h]
  · intro h
    have h45 : ¬ data.length > 45 := by omega
    simp [freeze_authority_check_passed, has_freeze_authority, h45]

/-- Witness for C10: the empty buffer passes the mint-authority check, and
a 1-byte buffer whose single byte is the set flag still passes the
freeze-authority check. -/
theorem C10_short_mint_data_passes_witness :
    mint_authority_check_passed [] = true ∧
    freeze_authority_check_passed [1] = true :=
  ⟨(C10_short_mint_data_passes []).1 rfl,
    (C10_short_mint_data_passes [1]).2 (by decide)⟩
